import Mathlib

/-!
Verification of the Finance Assistant Home Assistant integration.

The development shallowly embeds the data-refresh coordinator
(`custom_components/finance_assistant/coordinator.py`), the API client
(`api_client.py`), the sensor value coercion (`sensor.py`) and the
calendar event normalization (`calendar.py`).

Python JSON values are modelled by `JValue`; Python numbers (int/float)
are modelled by exact rationals; Python exceptions are modelled by
`Except PyErr`; `async` fetches are modelled by passing each endpoint's
response (`Except PyErr JValue`) as an input.
-/

namespace FinanceAssistant

/-- A Python value as it appears in decoded JSON payloads (plus `bool`,
which Python treats as a subtype of `int`). -/
inductive JValue where
  | jnull
  | jbool (b : Bool)
  | jnum (q : ℚ)
  | jstr (s : String)
  | jarr (xs : List JValue)
  | jobj (fields : List (String × JValue))

/-- The Python exceptions raised by the embedded code paths. -/
inductive PyErr where
  | typeError
  | attributeError
  | valueError
  | serverError (code : ℕ)
  | connectionError
  | invalidAuth
  | notFound
deriving DecidableEq, Repr

/-- First-match lookup in an object's field list (Python dict keys are
unique, so first-match lookup agrees with dict lookup). -/
def lookupField : List (String × JValue) → String → Option JValue
  | [], _ => none
  | (k, v) :: rest, key => if k = key then some v else lookupField rest key

/-- `x.get(key, default)`. Raises `AttributeError` when `x` is not a
dict, as Python does for `.get` on a non-dict value. -/
def pyGet (x : JValue) (key : String) (dflt : JValue) : Except PyErr JValue :=
  match x with
  | .jobj fields => .ok ((lookupField fields key).getD dflt)
  | _ => .error .attributeError

/-- The numeric view of a value used by Python's comparison operators
(bools are ints). -/
def toNum : JValue → Option ℚ
  | .jnum q => some q
  | .jbool b => some (if b then 1 else 0)
  | _ => none

/-- Python `a < b`. Numeric (incl. bool) and string-string comparisons
succeed; all other combinations raise `TypeError`. (List-list
comparison, which Python also supports, never occurs in the embedded
code: every comparison there has a numeric literal operand.) -/
def pyLt (a b : JValue) : Except PyErr Bool :=
  match toNum a, toNum b with
  | some x, some y => .ok (decide (x < y))
  | _, _ =>
    match a, b with
    | .jstr s, .jstr t => .ok (decide (s < t))
    | _, _ => .error .typeError

/-- Python `a <= b`, same conventions as `pyLt`. -/
def pyLe (a b : JValue) : Except PyErr Bool :=
  match toNum a, toNum b with
  | some x, some y => .ok (decide (x ≤ y))
  | _, _ =>
    match a, b with
    | .jstr s, .jstr t => .ok (decide (s ≤ t))
    | _, _ => .error .typeError

/-- Python `a > b`. -/
def pyGt (a b : JValue) : Except PyErr Bool := pyLt b a

/-- Python `a >= b`. -/
def pyGe (a b : JValue) : Except PyErr Bool := pyLe b a

/-! ## Metric Derivation Engine (`coordinator.py`) -/

/-- Body of `_calculate_balance_score` (the code inside its `try`). -/
def calcBalanceScoreE (account_summary : JValue) : Except PyErr ℚ :=
  match pyGet account_summary "total_balance" (.jnum 0) with
  | .error e => .error e
  | .ok total_balance =>
    match pyLe total_balance (.jnum 0) with
    | .error e => .error e
    | .ok true => .ok 0
    | .ok false =>
      match pyLt total_balance (.jnum 1000) with
      | .error e => .error e
      | .ok true => .ok 25
      | .ok false =>
        match pyLt total_balance (.jnum 5000) with
        | .error e => .error e
        | .ok true => .ok 50
        | .ok false =>
          match pyLt total_balance (.jnum 10000) with
          | .error e => .error e
          | .ok true => .ok 75
          | .ok false => .ok 100

/-- `_calculate_balance_score`: any exception yields 0. -/
def calcBalanceScore (account_summary : JValue) : ℚ :=
  match calcBalanceScoreE account_summary with
  | .ok v => v
  | .error _ => 0

/-- Body of `_calculate_cash_flow_score`. -/
def calcCashFlowScoreE (cash_flow : JValue) : Except PyErr ℚ :=
  match pyGet cash_flow "next_30_days" (.jobj []) with
  | .error e => .error e
  | .ok next_30_days =>
    match pyGet next_30_days "net" (.jnum 0) with
    | .error e => .error e
    | .ok net =>
      match pyGe net (.jnum 0) with
      | .error e => .error e
      | .ok true => .ok 100
      | .ok false =>
        match pyGt net (.jnum (-1000)) with
        | .error e => .error e
        | .ok true => .ok 75
        | .ok false =>
          match pyGt net (.jnum (-2500)) with
          | .error e => .error e
          | .ok true => .ok 50
          | .ok false =>
            match pyGt net (.jnum (-5000)) with
            | .error e => .error e
            | .ok true => .ok 25
            | .ok false => .ok 0

/-- `_calculate_cash_flow_score`: any exception yields 0. -/
def calcCashFlowScore (cash_flow : JValue) : ℚ :=
  match calcCashFlowScoreE cash_flow with
  | .ok v => v
  | .error _ => 0

/-- Body of `_calculate_expense_score`. -/
def calcExpenseScoreE (financial_summary : JValue) : Except PyErr ℚ :=
  match pyGet financial_summary "current_month" (.jobj []) with
  | .error e => .error e
  | .ok current_month =>
    match pyGet current_month "savings_rate" (.jnum 0) with
    | .error e => .error e
    | .ok savings_rate =>
      match pyGe savings_rate (.jnum 20) with
      | .error e => .error e
      | .ok true => .ok 100
      | .ok false =>
        match pyGe savings_rate (.jnum 15) with
        | .error e => .error e
        | .ok true => .ok 80
        | .ok false =>
          match pyGe savings_rate (.jnum 10) with
          | .error e => .error e
          | .ok true => .ok 60
          | .ok false =>
            match pyGe savings_rate (.jnum 5) with
            | .error e => .error e
            | .ok true => .ok 40
            | .ok false =>
              match pyGe savings_rate (.jnum 0) with
              | .error e => .error e
              | .ok true => .ok 20
              | .ok false => .ok 0

/-- `_calculate_expense_score`: any exception yields 0. -/
def calcExpenseScore (financial_summary : JValue) : ℚ :=
  match calcExpenseScoreE financial_summary with
  | .ok v => v
  | .error _ => 0

/-- Body of `_calculate_recurring_score`. -/
def calcRecurringScoreE (recurring_summary : JValue) : Except PyErr ℚ :=
  match pyGet recurring_summary "obligation_ratio" (.jnum 0) with
  | .error e => .error e
  | .ok obligation_ratio =>
    match pyLe obligation_ratio (.jnum 30) with
    | .error e => .error e
    | .ok true => .ok 100
    | .ok false =>
      match pyLe obligation_ratio (.jnum 40) with
      | .error e => .error e
      | .ok true => .ok 80
      | .ok false =>
        match pyLe obligation_ratio (.jnum 50) with
        | .error e => .error e
        | .ok true => .ok 60
        | .ok false =>
          match pyLe obligation_ratio (.jnum 60) with
          | .error e => .error e
          | .ok true => .ok 40
          | .ok false =>
            match pyLe obligation_ratio (.jnum 70) with
            | .error e => .error e
            | .ok true => .ok 20
            | .ok false => .ok 0

/-- `_calculate_recurring_score`: any exception yields 0. -/
def calcRecurringScore (recurring_summary : JValue) : ℚ :=
  match calcRecurringScoreE recurring_summary with
  | .ok v => v
  | .error _ => 0

/-- `_determine_risk_level` (pure: `score` is always a Python number
here, so the comparisons cannot raise). -/
def determineRiskLevel (score : ℚ) : String :=
  if score ≥ 80 then "low"
  else if score ≥ 60 then "moderate"
  else if score ≥ 40 then "high"
  else if score ≥ 20 then "very_high"
  else "critical"

/-- `_generate_recommendations`. -/
def generateRecommendations (balance_score cash_flow_score expense_score recurring_score : ℚ) :
    List String :=
  let recommendations :=
    (if balance_score < 50 then
      ["Build emergency fund to cover 3-6 months of expenses"] else []) ++
    (if cash_flow_score < 50 then
      ["Review upcoming expenses and adjust spending patterns"] else []) ++
    (if expense_score < 50 then
      ["Focus on increasing savings rate through expense reduction"] else []) ++
    (if recurring_score < 50 then
      ["Review recurring obligations and consider reducing non-essential expenses"] else [])
  if recommendations = [] then
    ["Maintain current financial practices - you're doing great!"]
  else recommendations

/-- `_generate_alerts`. It has no internal `try`, so a mistyped value
propagates an exception to the caller. -/
def generateAlertsE (data : JValue) : Except PyErr (List String) :=
  match pyGet data "critical_expenses" (.jobj []) with
  | .error e => .error e
  | .ok critical_expenses =>
    match pyGet critical_expenses "total_critical_amount" (.jnum 0) with
    | .error e => .error e
    | .ok tca =>
      match pyGt tca (.jnum 5000) with
      | .error e => .error e
      | .ok alert1 =>
        match pyGet data "cash_flow_forecast" (.jobj []) with
        | .error e => .error e
        | .ok cash_flow =>
          match pyGet cash_flow "next_30_days" (.jobj []) with
          | .error e => .error e
          | .ok next_30_days =>
            match pyGet next_30_days "net" (.jnum 0) with
            | .error e => .error e
            | .ok net =>
              match pyLt net (.jnum (-2000)) with
              | .error e => .error e
              | .ok alert2 =>
                match pyGet data "financial_summary" (.jobj []) with
                | .error e => .error e
                | .ok financial_summary =>
                  match pyGet financial_summary "current_month" (.jobj []) with
                  | .error e => .error e
                  | .ok current_month =>
                    match pyGet current_month "savings_rate" (.jnum 0) with
                    | .error e => .error e
                    | .ok savings_rate =>
                      match pyLt savings_rate (.jnum 10) with
                      | .error e => .error e
                      | .ok alert3 =>
                        .ok ((if alert1 then
                                ["High upcoming expenses detected - review budget"] else []) ++
                             (if alert2 then
                                ["Negative cash flow projected for next 30 days"] else []) ++
                             (if alert3 then
                                ["Low savings rate - consider increasing income or reducing expenses"]
                              else []))

/-- `_calculate_trends` (placeholder values in the source). -/
def calcTrends (_data : JValue) : JValue :=
  .jobj [("cash_flow_trend", .jstr "stable"),
         ("expense_trend", .jstr "stable"),
         ("savings_trend", .jstr "stable")]

/-- Python `round(x, 1)`: round to one decimal, ties to even (the
embedding works on exact rationals, so the tie rule applies to the exact
value). -/
def pyRound1 (x : ℚ) : ℚ :=
  let y := 10 * x
  let f : ℤ := ⌊y⌋
  let r := y - f
  let n : ℤ :=
    if r < 1/2 then f
    else if 1/2 < r then f + 1
    else if f % 2 = 0 then f else f + 1
  (n : ℚ) / 10

/-- The dict returned by `_calculate_financial_health`. -/
structure FinancialHealth where
  overall_score : ℚ
  balance_score : ℚ
  cash_flow_score : ℚ
  expense_score : ℚ
  recurring_score : ℚ
  risk_level : String
  recommendations : List String
  alerts : List String
  trends : JValue
  generated_at : String

/-- The fallback dict in the `except` branch of
`_calculate_financial_health` (`datetime.now()` is passed in as `now`). -/
def fallbackFinancialHealth (now : String) : FinancialHealth :=
  { overall_score := 0
    balance_score := 0
    cash_flow_score := 0
    expense_score := 0
    recurring_score := 0
    risk_level := "unknown"
    recommendations := ["Unable to calculate financial health"]
    alerts := ["Financial health calculation failed"]
    trends := .jobj []
    generated_at := now }

/-- Body of `_calculate_financial_health` (the code inside its `try`).
Exceptions can arise from the four `data.get` calls and from
`_generate_alerts`; the score helpers and the rest are total. -/
def calcFinancialHealthE (data : JValue) (now : String) : Except PyErr FinancialHealth :=
  match pyGet data "cash_flow_forecast" (.jobj []) with
  | .error e => .error e
  | .ok cash_flow =>
    match pyGet data "financial_summary" (.jobj []) with
    | .error e => .error e
    | .ok financial_summary =>
      match pyGet data "recurring_summary" (.jobj []) with
      | .error e => .error e
      | .ok recurring_summary =>
        match pyGet data "account_summary" (.jobj []) with
        | .error e => .error e
        | .ok account_summary =>
          let balance_score := calcBalanceScore account_summary
          let cash_flow_score := calcCashFlowScore cash_flow
          let expense_score := calcExpenseScore financial_summary
          let recurring_score := calcRecurringScore recurring_summary
          let overall_score :=
            balance_score * 0.25 + cash_flow_score * 0.30 +
            expense_score * 0.25 + recurring_score * 0.20
          let risk_level := determineRiskLevel overall_score
          let recommendations :=
            generateRecommendations balance_score cash_flow_score expense_score recurring_score
          match generateAlertsE data with
          | .error e => .error e
          | .ok alerts =>
            .ok { overall_score := pyRound1 overall_score
                  balance_score := pyRound1 balance_score
                  cash_flow_score := pyRound1 cash_flow_score
                  expense_score := pyRound1 expense_score
                  recurring_score := pyRound1 recurring_score
                  risk_level := risk_level
                  recommendations := recommendations
                  alerts := alerts
                  trends := calcTrends data
                  generated_at := now }

/-- `_calculate_financial_health`: the `try`/`except` wrapper. -/
def calcFinancialHealth (data : JValue) (now : String) : FinancialHealth :=
  match calcFinancialHealthE data now with
  | .ok h => h
  | .error _ => fallbackFinancialHealth now

/-- One entry of the `risk_factors` list of `_calculate_risk_assessment`. -/
structure RiskFactor where
  category : String
  description : String
  severity : String
  impact : String

/-- The dict returned by `_calculate_risk_assessment`. -/
structure RiskAssessment where
  overall_risk_score : ℕ
  risk_factors : List RiskFactor
  high_risk_items : List String
  medium_risk_items : List String
  risk_trends : JValue
  mitigation_strategies : List String
  generated_at : String

/-- The fallback dict in the `except` branch of
`_calculate_risk_assessment`. -/
def fallbackRiskAssessment (now : String) : RiskAssessment :=
  { overall_risk_score := 0
    risk_factors := []
    high_risk_items := []
    medium_risk_items := []
    risk_trends := .jobj []
    mitigation_strategies := ["Risk assessment calculation failed"]
    generated_at := now }

/-- The assembly tail of `_calculate_risk_assessment` (coordinator.py
363-418) as a function of the three risk-check outcomes: the
`risk_factors`/item lists, the capped score and the mitigation
strategies are built exactly as in the source. -/
def riskAssessmentOf (cashFlowRisk savingsRisk obligationRisk : Bool) (now : String) :
    RiskAssessment :=
  let risk_factors : List RiskFactor :=
    (if cashFlowRisk then
      [{ category := "cash_flow"
         description := "Negative cash flow projected"
         severity := "high"
         impact := "Potential liquidity issues" }] else []) ++
    (if savingsRisk then
      [{ category := "expenses"
         description := "Low savings rate"
         severity := "medium"
         impact := "Reduced financial resilience" }] else []) ++
    (if obligationRisk then
      [{ category := "recurring_obligations"
         description := "High recurring obligations"
         severity := "high"
         impact := "Limited financial flexibility" }] else [])
  let high_risk_items :=
    (if cashFlowRisk then
      ["Negative cash flow in next 30 days"] else []) ++
    (if obligationRisk then
      ["Recurring obligations exceed 60% of income"] else [])
  let medium_risk_items :=
    if savingsRisk then ["Savings rate below 10%"] else []
  let risk_score :=
    min 100 (high_risk_items.length * 30 + medium_risk_items.length * 15)
  let mitigation_strategies :=
    (if high_risk_items ≠ [] then
      ["Immediate action required - review budget and expenses"] else []) ++
    (if medium_risk_items ≠ [] then
      ["Monitor closely and implement improvement strategies"] else [])
  { overall_risk_score := risk_score
    risk_factors := risk_factors
    high_risk_items := high_risk_items
    medium_risk_items := medium_risk_items
    risk_trends := .jobj [("trend", .jstr "stable")]
    mitigation_strategies := mitigation_strategies
    generated_at := now }

/-- Body of `_calculate_risk_assessment` (the code inside its `try`).
`critical_expenses` is extracted by the source but never used. -/
def calcRiskAssessmentE (data : JValue) (now : String) : Except PyErr RiskAssessment :=
  match pyGet data "cash_flow_forecast" (.jobj []) with
  | .error e => .error e
  | .ok cash_flow =>
    match pyGet data "financial_summary" (.jobj []) with
    | .error e => .error e
    | .ok financial_summary =>
      match pyGet data "recurring_summary" (.jobj []) with
      | .error e => .error e
      | .ok recurring_summary =>
        match pyGet data "critical_expenses" (.jobj []) with
        | .error e => .error e
        | .ok _critical_expenses =>
          match pyGet cash_flow "next_30_days" (.jobj []) with
          | .error e => .error e
          | .ok next_30_days =>
            match pyGet next_30_days "net" (.jnum 0) with
            | .error e => .error e
            | .ok net =>
              match pyLt net (.jnum 0) with
              | .error e => .error e
              | .ok cashFlowRisk =>
                match pyGet financial_summary "current_month" (.jobj []) with
                | .error e => .error e
                | .ok current_month =>
                  match pyGet current_month "savings_rate" (.jnum 0) with
                  | .error e => .error e
                  | .ok savings_rate =>
                    match pyLt savings_rate (.jnum 10) with
                    | .error e => .error e
                    | .ok savingsRisk =>
                      match pyGet recurring_summary "obligation_ratio" (.jnum 0) with
                      | .error e => .error e
                      | .ok obligation_ratio =>
                        match pyGt obligation_ratio (.jnum 60) with
                        | .error e => .error e
                        | .ok obligationRisk =>
                          .ok (riskAssessmentOf cashFlowRisk savingsRisk obligationRisk now)

/-- `_calculate_risk_assessment`: the `try`/`except` wrapper. -/
def calcRiskAssessment (data : JValue) (now : String) : RiskAssessment :=
  match calcRiskAssessmentE data now with
  | .ok r => r
  | .error _ => fallbackRiskAssessment now

/-! ## API client (`api_client.py`)

Each endpoint call is modelled by its `_make_request` outcome, an
`Except PyErr JValue` input: `.ok` carries the decoded JSON body and
`.error` carries the raised exception (`ValueError` for 401/403/404,
`RuntimeError` modelled by `serverError` for 5xx, `aiohttp.ClientError`
modelled by `connectionError`). -/

/-- The `response.get("results", []) if isinstance(response, dict) else
response` post-processing shared by the enhanced list endpoints. -/
def extractResults (r : Except PyErr JValue) : Except PyErr JValue :=
  match r with
  | .ok (.jobj fields) => .ok ((lookupField fields "results").getD (.jarr []))
  | other => other

/-- `get_queries`: a single request; every exception is caught and
yields `[]`; a non-list body also yields `[]`. There is no retry. -/
def get_queries (r : Except PyErr JValue) : JValue :=
  match r with
  | .ok (.jarr xs) => .jarr xs
  | _ => .jarr []

/-- `get_dashboard`: a single request; every exception is caught and
yields `{}`; a non-dict body also yields `{}`. -/
def get_dashboard (r : Except PyErr JValue) : JValue :=
  match r with
  | .ok (.jobj fields) => .jobj fields
  | _ => .jobj []

/-- `get_calendars`: the source returns `{}` unconditionally without
making a request. -/
def get_calendars : JValue := .jobj []

/-! ## Refresh Coordinator (`coordinator.py`, `_async_update_data`) -/

/-- The raw `_make_request` outcomes of the endpoints one refresh cycle
touches. -/
structure ApiResults where
  cash_flow_forecast : Except PyErr JValue
  financial_summary : Except PyErr JValue
  critical_expenses : Except PyErr JValue
  recurring_summary : Except PyErr JValue
  account_summary : Except PyErr JValue
  enhanced_categories : Except PyErr JValue
  enhanced_payees : Except PyErr JValue
  enhanced_accounts : Except PyErr JValue
  recurring_transactions : Except PyErr JValue
  enhanced_transactions : Except PyErr JValue
  queries : Except PyErr JValue
  dashboard : Except PyErr JValue

/-- The snapshot dict built by one refresh cycle. -/
structure Snapshot where
  cash_flow_forecast : JValue
  financial_summary : JValue
  critical_expenses : JValue
  recurring_summary : JValue
  account_summary : JValue
  enhanced_categories : JValue
  enhanced_payees : JValue
  enhanced_accounts : JValue
  recurring_transactions : JValue
  enhanced_transactions : JValue
  financial_health : FinancialHealth
  risk_assessment : RiskAssessment
  queries : JValue
  dashboard : JValue
  calendars : JValue
  last_updated : String

/-- The per-fetch `try`/`except` wrapper of `_async_update_data`: a
failed fetch degrades to the given default. -/
def fetchOr (r : Except PyErr JValue) (dflt : JValue) : JValue :=
  match r with
  | .ok v => v
  | .error _ => dflt

/-- `_async_update_data`. Every fetch is individually wrapped, the
metric helpers are total, and `get_queries`/`get_dashboard`/
`get_calendars` swallow their own errors, so the body never raises; the
result is kept in `Except` because the outer `try` of the source turns
any unexpected exception into `UpdateFailed`. `datetime.now()` is
passed in as `now`. -/
def asyncUpdateData (api : ApiResults) (now : String) : Except PyErr Snapshot :=
  let cash_flow_forecast := fetchOr api.cash_flow_forecast (.jobj [])
  let financial_summary := fetchOr api.financial_summary (.jobj [])
  let critical_expenses := fetchOr api.critical_expenses (.jobj [])
  let recurring_summary := fetchOr api.recurring_summary (.jobj [])
  let account_summary := fetchOr api.account_summary (.jobj [])
  let enhanced_categories := fetchOr (extractResults api.enhanced_categories) (.jarr [])
  let enhanced_payees := fetchOr (extractResults api.enhanced_payees) (.jarr [])
  let enhanced_accounts := fetchOr (extractResults api.enhanced_accounts) (.jarr [])
  let recurring_transactions := fetchOr (extractResults api.recurring_transactions) (.jarr [])
  let enhanced_transactions := fetchOr (extractResults api.enhanced_transactions) (.jarr [])
  let data : JValue := .jobj
    [("cash_flow_forecast", cash_flow_forecast),
     ("financial_summary", financial_summary),
     ("critical_expenses", critical_expenses),
     ("recurring_summary", recurring_summary),
     ("account_summary", account_summary),
     ("enhanced_categories", enhanced_categories),
     ("enhanced_payees", enhanced_payees),
     ("enhanced_accounts", enhanced_accounts),
     ("recurring_transactions", recurring_transactions),
     ("enhanced_transactions", enhanced_transactions)]
  .ok { cash_flow_forecast := cash_flow_forecast
        financial_summary := financial_summary
        critical_expenses := critical_expenses
        recurring_summary := recurring_summary
        account_summary := account_summary
        enhanced_categories := enhanced_categories
        enhanced_payees := enhanced_payees
        enhanced_accounts := enhanced_accounts
        recurring_transactions := recurring_transactions
        enhanced_transactions := enhanced_transactions
        financial_health := calcFinancialHealth data now
        risk_assessment := calcRiskAssessment data now
        queries := get_queries api.queries
        dashboard := get_dashboard api.dashboard
        calendars := get_calendars
        last_updated := now }

/-- Names of the individually wrapped secondary fetches of
`_async_update_data` (the claims' "secondary endpoints"). -/
inductive SecField where
  | cashFlowForecast
  | financialSummary
  | criticalExpenses
  | recurringSummary
  | accountSummary
  | enhancedCategories
  | enhancedPayees
  | enhancedAccounts
  | recurringTransactions
  | enhancedTransactions
deriving DecidableEq

/-- The api-client call the coordinator makes for a secondary field
(for the five enhanced list endpoints the client post-processes the
body with `extractResults`; errors pass through). -/
def secFetch (api : ApiResults) : SecField → Except PyErr JValue
  | .cashFlowForecast => api.cash_flow_forecast
  | .financialSummary => api.financial_summary
  | .criticalExpenses => api.critical_expenses
  | .recurringSummary => api.recurring_summary
  | .accountSummary => api.account_summary
  | .enhancedCategories => extractResults api.enhanced_categories
  | .enhancedPayees => extractResults api.enhanced_payees
  | .enhancedAccounts => extractResults api.enhanced_accounts
  | .recurringTransactions => extractResults api.recurring_transactions
  | .enhancedTransactions => extractResults api.enhanced_transactions

/-- The empty default a failed secondary fetch degrades to (`{}` for
the dict endpoints, `[]` for the list endpoints). -/
def secDefault : SecField → JValue
  | .cashFlowForecast => .jobj []
  | .financialSummary => .jobj []
  | .criticalExpenses => .jobj []
  | .recurringSummary => .jobj []
  | .accountSummary => .jobj []
  | .enhancedCategories => .jarr []
  | .enhancedPayees => .jarr []
  | .enhancedAccounts => .jarr []
  | .recurringTransactions => .jarr []
  | .enhancedTransactions => .jarr []

/-- Projection of a snapshot's secondary fields. -/
def Snapshot.secField (s : Snapshot) : SecField → JValue
  | .cashFlowForecast => s.cash_flow_forecast
  | .financialSummary => s.financial_summary
  | .criticalExpenses => s.critical_expenses
  | .recurringSummary => s.recurring_summary
  | .accountSummary => s.account_summary
  | .enhancedCategories => s.enhanced_categories
  | .enhancedPayees => s.enhanced_payees
  | .enhancedAccounts => s.enhanced_accounts
  | .recurringTransactions => s.recurring_transactions
  | .enhancedTransactions => s.enhanced_transactions

/-! ## Sensor value coercion (`sensor.py`) -/

/-- Digit list to number. -/
def digitsToNat (cs : List Char) : ℕ :=
  cs.foldl (fun acc c => 10 * acc + (c.toNat - '0'.toNat)) 0

/-- `str.replace(c, "")`: removes every occurrence of the character. -/
def removeChar (c : Char) (cs : List Char) : List Char :=
  cs.filter (· ≠ c)

/-- `str.strip()` / surrounding-whitespace removal. -/
def trimChars (cs : List Char) : List Char :=
  ((cs.dropWhile Char.isWhitespace).reverse.dropWhile Char.isWhitespace).reverse

/-- Optional exponent suffix of a float literal. -/
def parseExponent (base : ℚ) : List Char → Option ℚ
  | [] => some base
  | c :: rest =>
    if c = 'e' ∨ c = 'E' then
      let signed : Bool × List Char :=
        match rest with
        | '-' :: r => (true, r)
        | '+' :: r => (false, r)
        | r => (false, r)
      let ds := signed.2.takeWhile Char.isDigit
      let rest3 := signed.2.dropWhile Char.isDigit
      if ds = [] ∨ rest3 ≠ [] then none
      else
        some (base * (10 : ℚ) ^
          (if signed.1 then -(digitsToNat ds : ℤ) else (digitsToNat ds : ℤ)))
    else none

/-- Unsigned part of a float literal: `digits [. digits]` or `. digits`,
optionally followed by an exponent. -/
def parseUnsignedFloat (cs : List Char) : Option ℚ :=
  let intPart := cs.takeWhile Char.isDigit
  let rest := cs.dropWhile Char.isDigit
  match rest with
  | '.' :: rest2 =>
    let fracPart := rest2.takeWhile Char.isDigit
    let rest3 := rest2.dropWhile Char.isDigit
    if intPart = [] ∧ fracPart = [] then none
    else
      parseExponent
        ((digitsToNat intPart : ℚ) + (digitsToNat fracPart : ℚ) / 10 ^ fracPart.length)
        rest3
  | _ =>
    if intPart = [] then none
    else parseExponent (digitsToNat intPart : ℚ) rest

/-- Python `float(s)`: strips surrounding whitespace, then parses a
signed decimal literal; `ValueError` is modelled by `none`. The
embedding computes the exact rational value (no binary rounding) and
does not model the `inf`/`nan`/underscore spellings, which do not occur
in the embedded call sites' inputs. -/
def pyFloat (cs : List Char) : Option ℚ :=
  match trimChars cs with
  | '-' :: rest => (parseUnsignedFloat rest).map (fun q => -q)
  | '+' :: rest => parseUnsignedFloat rest
  | cs2 => parseUnsignedFloat cs2

/-- `FinanceAssistantSensor._convert_to_numeric` (sensor.py 274-291;
`value.replace('$', '').replace(',', '').replace('(', '').replace(')', '')`
is the character-removal chain). Note the string branch: `$`, `,`, `(`
and `)` are removed outright, and the `startswith` branch only rewrites
an already-leading minus sign (normalizing the Unicode minus), so
parentheses do NOT negate. -/
def convertToNumeric (value : JValue) : Option ℚ :=
  match value with
  | .jnull => none
  | .jnum q => some q
  | .jbool b => some (if b then 1 else 0)
  | .jstr s =>
    let cleaned := removeChar ')' (removeChar '(' (removeChar ',' (removeChar '$' s.data)))
    let cleaned2 :=
      match cleaned with
      | '-' :: rest => '-' :: rest
      | '−' :: rest => '-' :: rest
      | other => other
    pyFloat cleaned2
  | _ => none

/-- `DashboardSensor._extract_numeric_value` (sensor.py 136-150): same
stripping, without even the minus-normalization branch. -/
def extractNumericValue (value : JValue) : Option ℚ :=
  match value with
  | .jnull => none
  | .jnum q => some q
  | .jbool b => some (if b then 1 else 0)
  | .jstr s =>
    pyFloat (removeChar ')' (removeChar '(' (removeChar ',' (removeChar '$' s.data))))
  | _ => none

/-! ## Calendar adapter (`calendar.py`) -/

/-- A Python `datetime` value. `dt_util.as_local` only attaches the
(fixed) local timezone to the naive values produced here, so it is
modelled as the identity. -/
structure PyDateTime where
  year : ℕ
  month : ℕ
  day : ℕ
  hour : ℕ
  minute : ℕ
  second : ℕ
  microsecond : ℕ
deriving DecidableEq, Repr

/-- `datetime` comparison (lexicographic on the components). -/
def PyDateTime.ltb (a b : PyDateTime) : Bool :=
  if a.year ≠ b.year then decide (a.year < b.year)
  else if a.month ≠ b.month then decide (a.month < b.month)
  else if a.day ≠ b.day then decide (a.day < b.day)
  else if a.hour ≠ b.hour then decide (a.hour < b.hour)
  else if a.minute ≠ b.minute then decide (a.minute < b.minute)
  else if a.second ≠ b.second then decide (a.second < b.second)
  else decide (a.microsecond < b.microsecond)

def isLeapYear (y : ℕ) : Bool :=
  (y % 4 == 0 && y % 100 != 0) || y % 400 == 0

def daysInMonth (y m : ℕ) : ℕ :=
  if m = 2 then (if isLeapYear y then 29 else 28)
  else if m = 4 ∨ m = 6 ∨ m = 9 ∨ m = 11 then 30
  else 31

/-- The `datetime(...)` constructor's range validation (out-of-range
components raise `ValueError`, modelled by `none`). -/
def mkDateTime (y mo d h mi s us : ℤ) : Option PyDateTime :=
  if 1 ≤ y ∧ y ≤ 9999 ∧ 1 ≤ mo ∧ mo ≤ 12 ∧ 1 ≤ d ∧
      d ≤ (daysInMonth y.toNat mo.toNat : ℤ) ∧
      0 ≤ h ∧ h < 24 ∧ 0 ≤ mi ∧ mi < 60 ∧ 0 ≤ s ∧ s < 60 ∧
      0 ≤ us ∧ us < 1000000 then
    some ⟨y.toNat, mo.toNat, d.toNat, h.toNat, mi.toNat, s.toNat, us.toNat⟩
  else none

/-- `start_date + timedelta(days=1)`. -/
def addOneDay (d : PyDateTime) : PyDateTime :=
  if d.day < daysInMonth d.year d.month then { d with day := d.day + 1 }
  else if d.month < 12 then { d with month := d.month + 1, day := 1 }
  else { d with year := d.year + 1, month := 1, day := 1 }

/-- `strptime` format directives: `%Y` `%m` `%d` `%H` `%M` `%S` `%f`
and literal characters. -/
inductive FmtTok where
  | fY
  | fm
  | fd
  | fH
  | fM
  | fS
  | ff
  | lit (c : Char)

/-- Partially parsed `strptime` fields, with Python's defaults
(year 1900, month 1, day 1, midnight). -/
structure StrpAcc where
  y : ℕ := 1900
  mo : ℕ := 1
  d : ℕ := 1
  h : ℕ := 0
  mi : ℕ := 0
  s : ℕ := 0
  us : ℕ := 0

/-- Take up to `n` leading digits. -/
def takeDigits : ℕ → List Char → List Char × List Char
  | 0, cs => ([], cs)
  | _ + 1, [] => ([], [])
  | n + 1, c :: cs =>
    if c.isDigit then
      let p := takeDigits n cs
      (c :: p.1, p.2)
    else ([], c :: cs)

/-- Run a format over the input. Numeric directives read greedily (`%Y`
exactly 4 digits, `%f` up to 6, the rest up to 2); together with the
`datetime` constructor validation below this accepts exactly the
strings Python's `strptime` accepts for these formats. -/
def strptimeRun : List FmtTok → List Char → StrpAcc → Option StrpAcc
  | [], [], acc => some acc
  | [], _ :: _, _ => none
  | .lit c :: toks, x :: rest, acc =>
    if x = c then strptimeRun toks rest acc else none
  | .lit _ :: _, [], _ => none
  | .fY :: toks, a :: b :: c :: d :: rest, acc =>
    if a.isDigit && b.isDigit && c.isDigit && d.isDigit then
      strptimeRun toks rest { acc with y := digitsToNat [a, b, c, d] }
    else none
  | .fY :: _, _, _ => none
  | .fm :: toks, cs, acc =>
    match takeDigits 2 cs with
    | ([], _) => none
    | (ds, rest) => strptimeRun toks rest { acc with mo := digitsToNat ds }
  | .fd :: toks, cs, acc =>
    match takeDigits 2 cs with
    | ([], _) => none
    | (ds, rest) => strptimeRun toks rest { acc with d := digitsToNat ds }
  | .fH :: toks, cs, acc =>
    match takeDigits 2 cs with
    | ([], _) => none
    | (ds, rest) => strptimeRun toks rest { acc with h := digitsToNat ds }
  | .fM :: toks, cs, acc =>
    match takeDigits 2 cs with
    | ([], _) => none
    | (ds, rest) => strptimeRun toks rest { acc with mi := digitsToNat ds }
  | .fS :: toks, cs, acc =>
    match takeDigits 2 cs with
    | ([], _) => none
    | (ds, rest) => strptimeRun toks rest { acc with s := digitsToNat ds }
  | .ff :: toks, cs, acc =>
    match takeDigits 6 cs with
    | ([], _) => none
    | (ds, rest) =>
      strptimeRun toks rest { acc with us := digitsToNat ds * 10 ^ (6 - ds.length) }

/-- `datetime.strptime(s, fmt)`. -/
def strptime (fmt : List FmtTok) (cs : List Char) : Option PyDateTime :=
  match strptimeRun fmt cs {} with
  | none => none
  | some acc =>
    mkDateTime (acc.y : ℤ) (acc.mo : ℤ) (acc.d : ℤ) (acc.h : ℤ) (acc.mi : ℤ)
      (acc.s : ℤ) 0

/-- The format list of `_parse_date` (calendar.py 195-204), in source
order. -/
def dateFormats : List (List FmtTok) :=
  [[.fY, .lit '-', .fm, .lit '-', .fd, .lit 'T', .fH, .lit ':', .fM, .lit ':', .fS],
   [.fY, .lit '-', .fm, .lit '-', .fd, .lit ' ', .fH, .lit ':', .fM, .lit ':', .fS],
   [.fY, .lit '-', .fm, .lit '-', .fd, .lit 'T', .fH, .lit ':', .fM],
   [.fY, .lit '-', .fm, .lit '-', .fd, .lit ' ', .fH, .lit ':', .fM],
   [.fY, .lit '-', .fm, .lit '-', .fd],
   [.fm, .lit '/', .fd, .lit '/', .fY],
   [.fd, .lit '/', .fm, .lit '/', .fY],
   [.fY, .lit '-', .fm, .lit '-', .fd, .lit ' ', .fH, .lit ':', .fM, .lit ':', .fS,
    .lit '.', .ff]]

/-- The `for fmt in date_formats` loop: first succeeding format wins. -/
def tryFormats : List (List FmtTok) → List Char → Option PyDateTime
  | [], _ => none
  | f :: fs, cs =>
    match strptime f cs with
    | some dt => some dt
    | none => tryFormats fs cs

/-- Civil date from days since 1970-01-01 (floor-division form of the
standard era/day-of-era algorithm; the inner `/` divide non-negative
quantities, where euclidean and C truncating division agree), used to
model `datetime.fromtimestamp` (the host's local timezone is modelled
as UTC). -/
def civilFromDays (z0 : ℤ) : ℤ × ℤ × ℤ :=
  let z := z0 + 719468
  let era : ℤ := Int.fdiv z 146097
  let doe : ℤ := z - era * 146097
  let yoe : ℤ := (doe - doe / 1460 + doe / 36524 - doe / 146096) / 365
  let y : ℤ := yoe + era * 400
  let doy : ℤ := doe - (365 * yoe + yoe / 4 - yoe / 100)
  let mp : ℤ := (5 * doy + 2) / 153
  let d : ℤ := doy - (153 * mp + 2) / 5 + 1
  let m : ℤ := mp + (if mp < 10 then 3 else (-9))
  (if m ≤ 2 then y + 1 else y, m, d)

/-- `datetime.fromtimestamp(q)` (local timezone modelled as UTC;
fractional seconds floor to microseconds; out-of-range years raise,
modelled by `none`). -/
def epochToDateTime (q : ℚ) : Option PyDateTime :=
  let secs : ℤ := ⌊q⌋
  let us : ℤ := ⌊(q - secs) * 1000000⌋
  let days : ℤ := Int.fdiv secs 86400
  let rem : ℤ := secs - days * 86400
  match civilFromDays days with
  | (y, m, d) => mkDateTime y m d (rem / 3600) (rem % 3600 / 60) (rem % 60) us

/-- Python truthiness of the JSON-representable values. -/
def truthy : JValue → Bool
  | .jnull => false
  | .jbool b => b
  | .jnum q => decide (q ≠ 0)
  | .jstr s => decide (s ≠ "")
  | .jarr xs => !xs.isEmpty
  | .jobj fields => !fields.isEmpty

/-- Python `int(x)` for the values reachable in `_parse_date`'s dict
branch: numbers truncate toward zero, strings must be signed decimal
digit runs; anything else raises (modelled by `none`). -/
def pyInt : JValue → Option ℤ
  | .jnum q => some (if q < 0 then -⌊-q⌋ else ⌊q⌋)
  | .jbool b => some (if b then 1 else 0)
  | .jstr s =>
    let signed : Bool × List Char :=
      match trimChars s.data with
      | '-' :: r => (true, r)
      | '+' :: r => (false, r)
      | r => (false, r)
    if signed.2 ≠ [] ∧ signed.2.all Char.isDigit then
      some (if signed.1 then -(digitsToNat signed.2 : ℤ) else (digitsToNat signed.2 : ℤ))
    else none
  | _ => none

mutual

/-- `_parse_date` (calendar.py 169-264) on JSON-representable values.
The `datetime`/`date`-object branches cannot receive JSON data and are
omitted; the `dateutil.parser` fallback after the format loop is
modelled as failing. Its outer `try` returns `None` on any exception,
so the function is total. -/
def parseDateValue (date_value : JValue) : Option PyDateTime :=
  if truthy date_value = false then none
  else
    match date_value with
    | .jstr s =>
      -- date_str = date_value.split('+')[0].split('Z')[0].strip()
      let date_str := trimChars ((s.data.takeWhile (· ≠ '+')).takeWhile (· ≠ 'Z'))
      tryFormats dateFormats date_str
    | .jnum q =>
      if (10000000000 : ℚ) < q then epochToDateTime (q / 1000) else epochToDateTime q
    | .jbool _ => epochToDateTime 1
    | .jobj fields =>
      if (lookupField fields "year").isSome ∧ (lookupField fields "month").isSome ∧
          (lookupField fields "day").isSome then
        match pyInt ((lookupField fields "year").getD .jnull),
            pyInt ((lookupField fields "month").getD .jnull),
            pyInt ((lookupField fields "day").getD .jnull),
            pyInt ((lookupField fields "hour").getD (.jnum 0)),
            pyInt ((lookupField fields "minute").getD (.jnum 0)),
            pyInt ((lookupField fields "second").getD (.jnum 0)) with
        | some y, some mo, some d, some h, some mi, some s => mkDateTime y mo d h mi s 0
        | _, _, _, _, _, _ => none
      else
        -- the `for key in ["date", "time", "timestamp"]` fallback loop
        match parseDateKey fields "date" with
        | some p => some p
        | none =>
          match parseDateKey fields "time" with
          | some p => some p
          | none => parseDateKey fields "timestamp"
    | _ => none

/-- `_parse_date(date_value[key])` for the first field named `key`
(`none` when the key is absent or its value does not parse). -/
def parseDateKey : List (String × JValue) → String → Option PyDateTime
  | [], _ => none
  | (k, v) :: rest, key =>
    if k = key then parseDateValue v else parseDateKey rest key

end

/-- Python `a or b`. -/
def pyOr (a b : JValue) : JValue := if truthy a then a else b

/-- A normalized `CalendarEvent`, restricted to the bounds the claims
are about (summary/description/location/uid extraction never touches
`start`/`end`). -/
structure CalEvent where
  start : PyDateTime
  end_ : PyDateTime
deriving DecidableEq, Repr

/-- The per-record body of the `events` loop (calendar.py 91-120).
`none` covers the `continue` paths (missing/unparseable start, or an
exception — e.g. `.get` on a non-dict record — caught by the per-event
`try`). A missing/unparseable end defaults to `start + timedelta(days=1)`;
a parsed end is used as-is. -/
def processEvent (event_data : JValue) : Option CalEvent :=
  match event_data with
  | .jobj fields =>
    let startRaw := pyOr ((lookupField fields "dtstart").getD .jnull)
                         ((lookupField fields "start").getD .jnull)
    match parseDateValue startRaw with
    | none => none
    | some start_date =>
      let endRaw := pyOr ((lookupField fields "dtend").getD .jnull)
                         ((lookupField fields "end").getD .jnull)
      let end_date :=
        match parseDateValue endRaw with
        | none => addOneDay start_date
        | some e => e
      some { start := start_date, end_ := end_date }
  | _ => none

/-- The `events` property (calendar.py 74-127): non-list calendar data
yields `[]`; each record goes through the loop body; the result is
sorted by start (Python's sort is stable, as is `mergeSort`). -/
def calendarEvents (calendar_data : JValue) : List CalEvent :=
  match calendar_data with
  | .jarr items =>
    (items.filterMap processEvent).mergeSort (fun a b => !(PyDateTime.ltb b.start a.start))
  | _ => []

/-! ## Concrete inputs used by witnesses and counterexamples -/

/-- An API outcome where only the cash-flow-forecast fetch fails. -/
def apiWitness : ApiResults :=
  { cash_flow_forecast := .error .connectionError
    financial_summary := .ok (.jobj [])
    critical_expenses := .ok (.jobj [])
    recurring_summary := .ok (.jobj [])
    account_summary := .ok (.jobj [])
    enhanced_categories := .ok (.jarr [])
    enhanced_payees := .ok (.jarr [])
    enhanced_accounts := .ok (.jarr [])
    recurring_transactions := .ok (.jarr [])
    enhanced_transactions := .ok (.jarr [])
    queries := .ok (.jarr [])
    dashboard := .ok (.jobj []) }

/-- An API outcome where every endpoint fails with HTTP 500 on every
attempt. -/
def apiAllDown : ApiResults :=
  { cash_flow_forecast := .error (.serverError 500)
    financial_summary := .error (.serverError 500)
    critical_expenses := .error (.serverError 500)
    recurring_summary := .error (.serverError 500)
    account_summary := .error (.serverError 500)
    enhanced_categories := .error (.serverError 500)
    enhanced_payees := .error (.serverError 500)
    enhanced_accounts := .error (.serverError 500)
    recurring_transactions := .error (.serverError 500)
    enhanced_transactions := .error (.serverError 500)
    queries := .error (.serverError 500)
    dashboard := .error (.serverError 500) }

/-- Malformed upstream data: `cash_flow_forecast` is a string, so
`.get("next_30_days")` on it raises `AttributeError` inside both metric
computations. -/
def dataBad : JValue := .jobj [("cash_flow_forecast", .jstr "bad")]

/-- Severity rank of the `risk_level` strings produced by
`_determine_risk_level` (0 = least severe). -/
def riskSeverityRank (level : String) : ℕ :=
  if level = "low" then 0
  else if level = "moderate" then 1
  else if level = "high" then 2
  else if level = "very_high" then 3
  else 4

/-! ## Helper lemmas -/

theorem pyRound1_intCast (n : ℤ) : pyRound1 ((n : ℚ)) = n := by
  simp only [pyRound1]
  rw [show (10 : ℚ) * (n : ℚ) = ((10 * n : ℤ) : ℚ) by push_cast; ring]
  rw [Int.floor_intCast]
  simp

theorem pyRound1_near (x : ℚ) : |pyRound1 x - x| ≤ 1/20 := by
  have hf : ((⌊10 * x⌋ : ℚ)) ≤ 10 * x := Int.floor_le _
  have hf2 : 10 * x < (⌊10 * x⌋ : ℚ) + 1 := Int.lt_floor_add_one _
  simp only [pyRound1]
  split_ifs with h1 h2 h3 <;> rw [abs_le] <;> constructor <;> push_cast <;> linarith

theorem pyRound1_den (x : ℚ) : ∃ m : ℤ, pyRound1 x = (m : ℚ)/10 := by
  simp only [pyRound1]
  split_ifs
  exacts [⟨⌊10*x⌋, rfl⟩, ⟨⌊10*x⌋ + 1, by push_cast; ring⟩, ⟨⌊10*x⌋, rfl⟩,
    ⟨⌊10*x⌋ + 1, by push_cast; ring⟩]

theorem pyRound1_bounds {x : ℚ} (h0 : 0 ≤ x) (h100 : x ≤ 100) :
    0 ≤ pyRound1 x ∧ pyRound1 x ≤ 100 := by
  obtain ⟨m, hm⟩ := pyRound1_den x
  have hn := pyRound1_near x
  rw [abs_le, hm] at hn
  rw [hm]
  constructor
  · by_contra hlt
    push_neg at hlt
    have hm0 : m < 0 := by exact_mod_cast show (m : ℚ) < 0 by linarith
    have h1 : m ≤ -1 := by omega
    have h2 : (m : ℚ) ≤ -1 := by exact_mod_cast h1
    linarith
  · by_contra hgt
    push_neg at hgt
    have hm0 : (1000 : ℤ) < m := by exact_mod_cast show (1000 : ℚ) < m by linarith
    have h1 : (1001 : ℤ) ≤ m := by omega
    have h2 : (1001 : ℚ) ≤ m := by exact_mod_cast h1
    linarith

theorem pyRound1_natCast (n : ℕ) : pyRound1 ((n : ℚ)) = n := by
  have := pyRound1_intCast (n : ℤ)
  push_cast at this
  exact_mod_cast this

theorem calcBalanceScoreE_ok (s : JValue) (v : ℚ) (h : calcBalanceScoreE s = .ok v) :
    v = 0 ∨ v = 25 ∨ v = 50 ∨ v = 75 ∨ v = 100 := by
  unfold calcBalanceScoreE at h
  repeat' split at h
  all_goals simp_all

theorem calcBalanceScore_mem (s : JValue) :
    calcBalanceScore s = 0 ∨ calcBalanceScore s = 25 ∨ calcBalanceScore s = 50 ∨
      calcBalanceScore s = 75 ∨ calcBalanceScore s = 100 := by
  unfold calcBalanceScore
  cases h : calcBalanceScoreE s with
  | ok v => simpa using calcBalanceScoreE_ok s v h
  | error e => simp

theorem calcCashFlowScoreE_ok (s : JValue) (v : ℚ) (h : calcCashFlowScoreE s = .ok v) :
    v = 0 ∨ v = 25 ∨ v = 50 ∨ v = 75 ∨ v = 100 := by
  unfold calcCashFlowScoreE at h
  repeat' split at h
  all_goals simp_all

theorem calcCashFlowScore_mem (s : JValue) :
    calcCashFlowScore s = 0 ∨ calcCashFlowScore s = 25 ∨ calcCashFlowScore s = 50 ∨
      calcCashFlowScore s = 75 ∨ calcCashFlowScore s = 100 := by
  unfold calcCashFlowScore
  cases h : calcCashFlowScoreE s with
  | ok v => simpa using calcCashFlowScoreE_ok s v h
  | error e => simp

theorem calcExpenseScoreE_ok (s : JValue) (v : ℚ) (h : calcExpenseScoreE s = .ok v) :
    v = 0 ∨ v = 20 ∨ v = 40 ∨ v = 60 ∨ v = 80 ∨ v = 100 := by
  unfold calcExpenseScoreE at h
  repeat' split at h
  all_goals simp_all

theorem calcExpenseScore_mem (s : JValue) :
    calcExpenseScore s = 0 ∨ calcExpenseScore s = 20 ∨ calcExpenseScore s = 40 ∨
      calcExpenseScore s = 60 ∨ calcExpenseScore s = 80 ∨ calcExpenseScore s = 100 := by
  unfold calcExpenseScore
  cases h : calcExpenseScoreE s with
  | ok v => simpa using calcExpenseScoreE_ok s v h
  | error e => simp

theorem calcRecurringScoreE_ok (s : JValue) (v : ℚ) (h : calcRecurringScoreE s = .ok v) :
    v = 0 ∨ v = 20 ∨ v = 40 ∨ v = 60 ∨ v = 80 ∨ v = 100 := by
  unfold calcRecurringScoreE at h
  repeat' split at h
  all_goals simp_all

theorem calcRecurringScore_mem (s : JValue) :
    calcRecurringScore s = 0 ∨ calcRecurringScore s = 20 ∨ calcRecurringScore s = 40 ∨
      calcRecurringScore s = 60 ∨ calcRecurringScore s = 80 ∨ calcRecurringScore s = 100 := by
  unfold calcRecurringScore
  cases h : calcRecurringScoreE s with
  | ok v => simpa using calcRecurringScoreE_ok s v h
  | error e => simp

theorem calcBalanceScore_bounds (s : JValue) :
    0 ≤ calcBalanceScore s ∧ calcBalanceScore s ≤ 100 := by
  rcases calcBalanceScore_mem s with h | h | h | h | h <;> rw [h] <;> norm_num

theorem calcCashFlowScore_bounds (s : JValue) :
    0 ≤ calcCashFlowScore s ∧ calcCashFlowScore s ≤ 100 := by
  rcases calcCashFlowScore_mem s with h | h | h | h | h <;> rw [h] <;> norm_num

theorem calcExpenseScore_bounds (s : JValue) :
    0 ≤ calcExpenseScore s ∧ calcExpenseScore s ≤ 100 := by
  rcases calcExpenseScore_mem s with h | h | h | h | h | h <;> rw [h] <;> norm_num

theorem calcRecurringScore_bounds (s : JValue) :
    0 ≤ calcRecurringScore s ∧ calcRecurringScore s ≤ 100 := by
  rcases calcRecurringScore_mem s with h | h | h | h | h | h <;> rw [h] <;> norm_num

theorem pyRound1_fix_balance (s : JValue) :
    pyRound1 (calcBalanceScore s) = calcBalanceScore s := by
  rcases calcBalanceScore_mem s with h | h | h | h | h <;> rw [h] <;>
    simpa using pyRound1_natCast _

theorem pyRound1_fix_cash_flow (s : JValue) :
    pyRound1 (calcCashFlowScore s) = calcCashFlowScore s := by
  rcases calcCashFlowScore_mem s with h | h | h | h | h <;> rw [h] <;>
    simpa using pyRound1_natCast _

theorem pyRound1_fix_expense (s : JValue) :
    pyRound1 (calcExpenseScore s) = calcExpenseScore s := by
  rcases calcExpenseScore_mem s with h | h | h | h | h | h <;> rw [h] <;>
    simpa using pyRound1_natCast _

theorem pyRound1_fix_recurring (s : JValue) :
    pyRound1 (calcRecurringScore s) = calcRecurringScore s := by
  rcases calcRecurringScore_mem s with h | h | h | h | h | h <;> rw [h] <;>
    simpa using pyRound1_natCast _

theorem calcFinancialHealthE_ok_shape (data : JValue) (now : String) (fh : FinancialHealth)
    (h : calcFinancialHealthE data now = .ok fh) :
    ∃ cfd fsd rsd asd : JValue,
      fh.balance_score = pyRound1 (calcBalanceScore asd) ∧
      fh.cash_flow_score = pyRound1 (calcCashFlowScore cfd) ∧
      fh.expense_score = pyRound1 (calcExpenseScore fsd) ∧
      fh.recurring_score = pyRound1 (calcRecurringScore rsd) ∧
      fh.overall_score = pyRound1 (calcBalanceScore asd * 0.25 + calcCashFlowScore cfd * 0.30 +
        calcExpenseScore fsd * 0.25 + calcRecurringScore rsd * 0.20) := by
  unfold calcFinancialHealthE at h
  repeat' split at h
  all_goals try simp_all
  subst h
  exact ⟨_, _, _, _, rfl, rfl, rfl, rfl, rfl⟩

theorem calcRiskAssessmentE_ok_shape (data : JValue) (now : String) (r : RiskAssessment)
    (h : calcRiskAssessmentE data now = .ok r) :
    ∃ cf sr ob : Bool, r = riskAssessmentOf cf sr ob now := by
  unfold calcRiskAssessmentE at h
  repeat' split at h
  all_goals first
    | (rw [Except.ok.injEq] at h; exact ⟨_, _, _, h.symm⟩)
    | simp_all

theorem riskAssessmentOf_score (cf sr ob : Bool) (now : String) :
    (riskAssessmentOf cf sr ob now).overall_risk_score =
      30 * (riskAssessmentOf cf sr ob now).high_risk_items.length +
      15 * (riskAssessmentOf cf sr ob now).medium_risk_items.length ∧
    (riskAssessmentOf cf sr ob now).overall_risk_score ≤ 75 ∧
    15 ∣ (riskAssessmentOf cf sr ob now).overall_risk_score := by
  cases cf <;> cases sr <;> cases ob <;> simp [riskAssessmentOf] <;> norm_num

theorem calcFinancialHealthE_timestamp (data : JValue) (n1 n2 : String) :
    calcFinancialHealthE data n1 =
      (calcFinancialHealthE data n2).map (fun fh => { fh with generated_at := n1 }) := by
  unfold calcFinancialHealthE
  repeat' split
  all_goals rfl

theorem calcRiskAssessmentE_timestamp (data : JValue) (n1 n2 : String) :
    calcRiskAssessmentE data n1 =
      (calcRiskAssessmentE data n2).map (fun r => { r with generated_at := n1 }) := by
  unfold calcRiskAssessmentE
  repeat' split
  all_goals rfl

theorem riskSeverityRank_determine (s : ℚ) :
    riskSeverityRank (determineRiskLevel s) =
      if s ≥ 80 then 0 else if s ≥ 60 then 1 else if s ≥ 40 then 2
      else if s ≥ 20 then 3 else 4 := by
  unfold determineRiskLevel
  split_ifs <;> simp [riskSeverityRank]

/-! ## Claims -/

/-- C1: if any individually wrapped secondary fetch (cash-flow
forecast, financial summary, critical expenses, recurring summary,
account summary, or an enhanced entity list) raises, `refresh()` still
returns a snapshot, the corresponding field is the empty default
(`{}`/`[]`), and every secondary field — failed or not — is determined
solely by its own fetch result (so the other fields are unaffected). -/
theorem refresh_isolates_secondary_failures (api : ApiResults) (now : String)
    (f : SecField) (e : PyErr) (h : secFetch api f = .error e) :
    ∃ s, asyncUpdateData api now = Except.ok s ∧ s.secField f = secDefault f ∧
      ∀ g : SecField, s.secField g = fetchOr (secFetch api g) (secDefault g) := by
  refine ⟨_, rfl, ?_, fun g => by cases g <;> rfl⟩
  have hf : ∀ g : SecField,
      (Snapshot.secField · g) ((asyncUpdateData api now).toOption.get rfl) =
        fetchOr (secFetch api g) (secDefault g) := fun g => by cases g <;> rfl
  have := hf f
  rw [h] at this
  exact this

/-- C1 witness: a concrete refresh in which only the cash-flow-forecast
fetch fails. -/
theorem refresh_isolates_secondary_failures_witness :
    ∃ s, asyncUpdateData apiWitness "t" = Except.ok s ∧
      s.secField .cashFlowForecast = secDefault .cashFlowForecast ∧
      ∀ g : SecField, s.secField g = fetchOr (secFetch apiWitness g) (secDefault g) :=
  refresh_isolates_secondary_failures apiWitness "t" .cashFlowForecast .connectionError rfl

/-- C2 counterexample: with the query-catalog endpoint failing with
HTTP 500 on every attempt (all attempts see `serverError 500`),
`get_queries` swallows the error after its single request and returns
`[]`, and the refresh completes successfully with `queries = []` — it
does not retry and does not raise `UpdateFailed`. -/
theorem catalog_5xx_no_update_failed_counterexample :
    get_queries (Except.error (PyErr.serverError 500)) = JValue.jarr [] ∧
    (asyncUpdateData apiAllDown "t").map Snapshot.queries = Except.ok (JValue.jarr []) :=
  ⟨rfl, rfl⟩

/-- C2 amended: a query-catalog fetch failure (of any kind, 5xx
included) is caught inside the single-attempt `get_queries`, which
returns `[]`; `refresh()` stores `[]` in `queries` and completes
normally instead of raising `UpdateFailed`. -/
theorem catalog_failure_degrades_to_empty_queries (api : ApiResults) (now : String)
    (e : PyErr) (h : api.queries = .error e) :
    (asyncUpdateData api now).map Snapshot.queries = Except.ok (JValue.jarr []) := by
  unfold asyncUpdateData get_queries
  rw [h]
  rfl

/-- C2 witness: the amended statement at the all-5xx outcome. -/
theorem catalog_failure_degrades_to_empty_queries_witness :
    (asyncUpdateData apiAllDown "t").map Snapshot.queries = Except.ok (JValue.jarr []) :=
  catalog_failure_degrades_to_empty_queries apiAllDown "t" (.serverError 500) rfl

/-- C3: for every snapshot, `financial_health.overall_score` lies in
[0,100] and is exactly the one-decimal rounding of
`0.25·balance_score + 0.30·cash_flow_score + 0.25·expense_score +
0.20·recurring_score` (hence within 1/20 of that weighted sum), with
the four weights fixed constants of the definition. -/
theorem overall_score_is_weighted_sum_in_range (data : JValue) (now : String) :
    0 ≤ (calcFinancialHealth data now).overall_score ∧
    (calcFinancialHealth data now).overall_score ≤ 100 ∧
    (calcFinancialHealth data now).overall_score =
      pyRound1 ((calcFinancialHealth data now).balance_score * 0.25 +
        (calcFinancialHealth data now).cash_flow_score * 0.30 +
        (calcFinancialHealth data now).expense_score * 0.25 +
        (calcFinancialHealth data now).recurring_score * 0.20) ∧
    |(calcFinancialHealth data now).overall_score -
      ((calcFinancialHealth data now).balance_score * 0.25 +
        (calcFinancialHealth data now).cash_flow_score * 0.30 +
        (calcFinancialHealth data now).expense_score * 0.25 +
        (calcFinancialHealth data now).recurring_score * 0.20)| ≤ 1/20 := by
  unfold calcFinancialHealth
  cases h : calcFinancialHealthE data now with
  | error e =>
    simp only [fallbackFinancialHealth]
    norm_num
    simpa using (pyRound1_natCast 0).symm
  | ok fh =>
    obtain ⟨cfd, fsd, rsd, asd, hb, hc, he, hr, ho⟩ :=
      calcFinancialHealthE_ok_shape data now fh h
    rw [hb, hc, he, hr, ho, pyRound1_fix_balance, pyRound1_fix_cash_flow,
      pyRound1_fix_expense, pyRound1_fix_recurring]
    obtain ⟨b1, b2⟩ := calcBalanceScore_bounds asd
    obtain ⟨c1, c2⟩ := calcCashFlowScore_bounds cfd
    obtain ⟨e1, e2⟩ := calcExpenseScore_bounds fsd
    obtain ⟨r1, r2⟩ := calcRecurringScore_bounds rsd
    have hsum1 : 0 ≤ calcBalanceScore asd * 0.25 + calcCashFlowScore cfd * 0.30 +
        calcExpenseScore fsd * 0.25 + calcRecurringScore rsd * 0.20 := by linarith
    have hsum2 : calcBalanceScore asd * 0.25 + calcCashFlowScore cfd * 0.30 +
        calcExpenseScore fsd * 0.25 + calcRecurringScore rsd * 0.20 ≤ 100 := by linarith
    obtain ⟨hb1, hb2⟩ := pyRound1_bounds hsum1 hsum2
    exact ⟨hb1, hb2, rfl, pyRound1_near _⟩

/-- C4: whenever the account summary's `total_balance` is a number `q`,
`_calculate_balance_score` is the documented step function: `q ≤ 0 → 0`,
`0 < q < 1000 → 25`, `1000 ≤ q < 5000 → 50`, `5000 ≤ q < 10000 → 75`,
`q ≥ 10000 → 100`. -/
theorem balance_score_step_function (s : JValue) (q : ℚ)
    (h : pyGet s "total_balance" (.jnum 0) = .ok (.jnum q)) :
    calcBalanceScore s =
      if q ≤ 0 then 0 else if q < 1000 then 25 else if q < 5000 then 50
      else if q < 10000 then 75 else 100 := by
  unfold calcBalanceScore calcBalanceScoreE
  rw [h]
  by_cases h1 : q ≤ 0
  · simp [pyLe, toNum, h1]
  · by_cases h2 : q < 1000
    · simp [pyLe, pyLt, toNum, h1, h2]
    · by_cases h3 : q < 5000
      · simp [pyLe, pyLt, toNum, h1, h2, h3]
      · by_cases h4 : q < 10000
        · simp [pyLe, pyLt, toNum, h1, h2, h3, h4]
        · simp [pyLe, pyLt, toNum, h1, h2, h3, h4]

/-- C4 witness: the step function at a concrete summary with
`total_balance = 12000`. -/
theorem balance_score_step_function_witness :
    calcBalanceScore (.jobj [("total_balance", .jnum 12000)]) =
      if (12000 : ℚ) ≤ 0 then 0 else if (12000 : ℚ) < 1000 then 25
      else if (12000 : ℚ) < 5000 then 50 else if (12000 : ℚ) < 10000 then 75 else 100 :=
  balance_score_step_function (.jobj [("total_balance", .jnum 12000)]) 12000 rfl

/-- C5: the severity of `_determine_risk_level` is monotonically
non-increasing in the overall score, and the boundary scores 80, 60,
40, 20 map exactly to low, moderate, high and very_high, with every
score below 20 mapping to critical. -/
theorem risk_level_monotone_with_boundaries :
    (∀ s1 s2 : ℚ, s1 ≤ s2 →
      riskSeverityRank (determineRiskLevel s2) ≤ riskSeverityRank (determineRiskLevel s1)) ∧
    determineRiskLevel 80 = "low" ∧ determineRiskLevel 60 = "moderate" ∧
    determineRiskLevel 40 = "high" ∧ determineRiskLevel 20 = "very_high" ∧
    ∀ s : ℚ, s < 20 → determineRiskLevel s = "critical" := by
  refine ⟨?_, by norm_num [determineRiskLevel], by norm_num [determineRiskLevel],
    by norm_num [determineRiskLevel], by norm_num [determineRiskLevel], ?_⟩
  · intro s1 s2 hle
    rw [riskSeverityRank_determine, riskSeverityRank_determine]
    split_ifs <;> first | omega | linarith
  · intro s hs
    unfold determineRiskLevel
    rw [if_neg (by linarith), if_neg (by linarith), if_neg (by linarith),
      if_neg (by linarith)]

/-- C5 witness: monotonicity applied at 30 ≤ 90 and the critical band
at 10. -/
theorem risk_level_monotone_with_boundaries_witness :
    riskSeverityRank (determineRiskLevel 90) ≤ riskSeverityRank (determineRiskLevel 30) ∧
    determineRiskLevel 10 = "critical" :=
  ⟨risk_level_monotone_with_boundaries.1 30 90 (by norm_num),
   risk_level_monotone_with_boundaries.2.2.2.2.2 10 (by norm_num)⟩

/-- C6 (code bug evidence): the shared coercion maps "$1,234.56" to
1234.56, None to None, 42 to 42.0 and unparsable text to None without
raising — but "(500)" evaluates to +500, not −500: the parentheses are
stripped outright and the sign is lost, although the code's own comment
says it handles negative values in parentheses. The dashboard variant
behaves the same way. -/
theorem convert_to_numeric_eval :
    convertToNumeric (.jstr "$1,234.56") = some (1234.56 : ℚ) ∧
    convertToNumeric (.jstr "(500)") = some 500 ∧
    convertToNumeric .jnull = none ∧
    convertToNumeric (.jnum 42) = some 42 ∧
    convertToNumeric (.jstr "not a number") = none ∧
    extractNumericValue (.jstr "(500)") = some 500 := by
  refine ⟨?_, rfl, rfl, rfl, rfl, rfl⟩
  show some ((1234 : ℚ) + 56 / 10 ^ 2) = some (1234.56 : ℚ)
  norm_num

/-- C7 counterexample: a record whose end parses strictly before its
start is NOT corrected — the produced event keeps the inverted range,
so `end ≥ start` fails after normalization. -/
theorem calendar_inverted_range_counterexample :
    calendarEvents (.jarr [.jobj [("dtstart", .jstr "2024-01-02"),
        ("dtend", .jstr "2024-01-01")]]) =
      [{ start := ⟨2024, 1, 2, 0, 0, 0, 0⟩, end_ := ⟨2024, 1, 1, 0, 0, 0, 0⟩ }] ∧
    PyDateTime.ltb ⟨2024, 1, 1, 0, 0, 0, 0⟩ ⟨2024, 1, 2, 0, 0, 0, 0⟩ = true := by
  constructor
  · show (List.filterMap processEvent
        [.jobj [("dtstart", .jstr "2024-01-02"), ("dtend", .jstr "2024-01-01")]]).mergeSort
        (fun a b => !(PyDateTime.ltb b.start a.start)) = _
    rw [show List.filterMap processEvent
        [.jobj [("dtstart", .jstr "2024-01-02"), ("dtend", .jstr "2024-01-01")]] =
        [({ start := ⟨2024, 1, 2, 0, 0, 0, 0⟩, end_ := ⟨2024, 1, 1, 0, 0, 0, 0⟩} : CalEvent)]
      from rfl]
    rw [List.mergeSort_singleton]
  · rfl

/-- C7 amended: for a record whose start parses, a missing or
unparseable end yields an event spanning start to start + 1 day, and a
parsed end is used as-is — in particular an end strictly before the
start is kept, not corrected. -/
theorem calendar_end_default_and_inversion_kept (fields : List (String × JValue))
    (s : PyDateTime)
    (hs : parseDateValue (pyOr ((lookupField fields "dtstart").getD .jnull)
        ((lookupField fields "start").getD .jnull)) = some s) :
    (parseDateValue (pyOr ((lookupField fields "dtend").getD .jnull)
        ((lookupField fields "end").getD .jnull)) = none →
      processEvent (.jobj fields) = some { start := s, end_ := addOneDay s }) ∧
    ∀ e : PyDateTime,
      parseDateValue (pyOr ((lookupField fields "dtend").getD .jnull)
          ((lookupField fields "end").getD .jnull)) = some e →
      processEvent (.jobj fields) = some { start := s, end_ := e } := by
  constructor
  · intro he
    simp only [processEvent, hs, he]
  · intro e he
    simp only [processEvent, hs, he]

/-- C7 witness: the spec's own example — a record with
`dtstart = "2024-01-01"` and no end yields an event spanning
2024-01-01 to 2024-01-02. -/
theorem calendar_end_default_and_inversion_kept_witness :
    processEvent (.jobj [("dtstart", .jstr "2024-01-01")]) =
      some { start := ⟨2024, 1, 1, 0, 0, 0, 0⟩, end_ := ⟨2024, 1, 2, 0, 0, 0, 0⟩ } :=
  (calendar_end_default_and_inversion_kept [("dtstart", .jstr "2024-01-01")]
    ⟨2024, 1, 1, 0, 0, 0, 0⟩ rfl).1 rfl

/-- C8: the two metric computations never propagate an exception: for
every input (malformed included) the wrapper returns the inner result
when the body succeeds, and the fixed fallback structure (all scores 0
and risk_level "unknown"; zeroed risk score with empty lists) when the
body raises. -/
theorem metric_engine_fail_safe (data : JValue) (now : String) :
    ((∀ e : PyErr, calcFinancialHealthE data now = .error e →
        calcFinancialHealth data now = fallbackFinancialHealth now) ∧
     ∀ fh : FinancialHealth, calcFinancialHealthE data now = .ok fh →
        calcFinancialHealth data now = fh) ∧
    ((∀ e : PyErr, calcRiskAssessmentE data now = .error e →
        calcRiskAssessment data now = fallbackRiskAssessment now) ∧
     ∀ r : RiskAssessment, calcRiskAssessmentE data now = .ok r →
        calcRiskAssessment data now = r) := by
  refine ⟨⟨?_, ?_⟩, ?_, ?_⟩ <;> intro v h <;>
    simp [calcFinancialHealth, calcRiskAssessment, h]

/-- C8 witness: malformed data (a string where a dict is expected)
makes both computation bodies raise `AttributeError`, and both
functions return their fixed fallbacks. -/
theorem metric_engine_fail_safe_witness :
    calcFinancialHealth dataBad "t" = fallbackFinancialHealth "t" ∧
    calcRiskAssessment dataBad "t" = fallbackRiskAssessment "t" :=
  ⟨(metric_engine_fail_safe dataBad "t").1.1 .attributeError rfl,
   (metric_engine_fail_safe dataBad "t").2.1 .attributeError rfl⟩

/-- C9 counterexample: two refreshes over identical upstream data but
performed at different wall-clock times produce derived values that are
NOT identical — the derived dicts embed `generated_at =
datetime.now()`. -/
theorem metric_engine_timestamp_counterexample :
    calcFinancialHealth (.jobj []) "2024-01-01T00:00:00" ≠
      calcFinancialHealth (.jobj []) "2024-01-01T00:15:00" ∧
    calcRiskAssessment (.jobj []) "2024-01-01T00:00:00" ≠
      calcRiskAssessment (.jobj []) "2024-01-01T00:15:00" :=
  ⟨fun h => absurd (congrArg FinancialHealth.generated_at h) (by decide),
   fun h => absurd (congrArg RiskAssessment.generated_at h) (by decide)⟩

/-- C9 amended: the Metric Derivation Engine is a pure deterministic
function of the fetched data up to the embedded `generated_at`
timestamp: on identical upstream data, two computations agree on every
field once `generated_at` is masked. -/
theorem metric_engine_deterministic_modulo_timestamp (data : JValue) (now1 now2 : String) :
    { calcFinancialHealth data now1 with generated_at := "" } =
      { calcFinancialHealth data now2 with generated_at := "" } ∧
    { calcRiskAssessment data now1 with generated_at := "" } =
      { calcRiskAssessment data now2 with generated_at := "" } := by
  constructor
  · unfold calcFinancialHealth
    rw [calcFinancialHealthE_timestamp data now1 now2]
    cases calcFinancialHealthE data now2 <;> rfl
  · unfold calcRiskAssessment
    rw [calcRiskAssessmentE_timestamp data now1 now2]
    cases calcRiskAssessmentE data now2 <;> rfl

/-- C10: for every input, the risk assessment's overall score equals
`30·|high| + 15·|medium|` (so the `min(100, ·)` cap never binds), is at
most 75, and is a multiple of 15. -/
theorem risk_score_multiple_of_15_capped (data : JValue) (now : String) :
    (calcRiskAssessment data now).overall_risk_score =
      30 * (calcRiskAssessment data now).high_risk_items.length +
      15 * (calcRiskAssessment data now).medium_risk_items.length ∧
    (calcRiskAssessment data now).overall_risk_score ≤ 75 ∧
    15 ∣ (calcRiskAssessment data now).overall_risk_score := by
  unfold calcRiskAssessment
  cases h : calcRiskAssessmentE data now with
  | error e => simp [fallbackRiskAssessment]
  | ok r =>
    obtain ⟨cf, sr, ob, hr⟩ := calcRiskAssessmentE_ok_shape data now r h
    rw [hr]
    exact riskAssessmentOf_score cf sr ob now

end FinanceAssistant
